import Mathlib

/-!
Verification of the AICryptoPulse RAG pipeline core.

Shallow embedding of `src/service/rag_pipeline.py` (the serving pipeline:
`EmbeddingModelWrapper`, `RagPipeline.initialize_faiss_index`,
`RagPipeline.run`), `src/service/rag_pipeline/pipeline.py` (the build-side
pipeline: `_split_documents`, `_build_faiss_index`) and
`src/service/rag_pipeline/get_data_psql.py` (the relational data layer).
External collaborators (the S3 blob store, the sentence-transformer model,
the language-model chain, the text splitter and the conversation-buffer
object provided by third-party libraries) are modelled behind the contracts
the spec states for them; each such definition carries a doc comment saying
what it models.
-/

namespace AICryptoPulse

/-- Role of one conversation message, as recorded by the pipeline memory
(`save_context` records a `User` message and an `Assistant` message). -/
inductive Role where
  | user
  | assistant
  deriving DecidableEq, Repr

/-- One recorded conversation message: a role together with its text. -/
structure Turn where
  role : Role
  text : String
  deriving DecidableEq, Repr

/-- The argument of `RagPipeline.run`: a dict carrying the user question
under key `prompt` and the per-user system prompt under `system_prompt`. -/
structure UserPrompt where
  prompt : String
  system_prompt : String
  deriving DecidableEq, Repr

/-! ## Embedder (`EmbeddingModelWrapper`, src/service/rag_pipeline.py lines 23-35) -/

/-- Wrapper around a sentence-transformer model.  The underlying
`SentenceTransformer.encode` is an external library call; it is carried as
the field `model_encode`, a function from a batch of texts to a batch of
vectors, exactly the shape the source calls it with. -/
structure EmbeddingModelWrapper (V : Type) where
  model_encode : List String → List V

/-- Method `__call__(text)`: `self.model.encode([text])[0].tolist()` — encode the
one-element batch and take its first element (`none` models the IndexError
raised when indexing an empty result). -/
def EmbeddingModelWrapper.call (w : EmbeddingModelWrapper V) (text : String) : Option V :=
  (w.model_encode [text]).head?

/-- Method `embed_documents(texts)`: `self.model.encode(texts).tolist()`. -/
def EmbeddingModelWrapper.embed_documents (w : EmbeddingModelWrapper V)
    (texts : List String) : List V :=
  w.model_encode texts

/-! ## Conversation memory

The source holds conversation state in a library-provided
`ConversationBufferWindowMemory(k=nof_messages_to_store, ...)`
(src/service/rag_pipeline.py lines 57-59); the buffer object itself is not
part of this repository. -/

/-- Modelled from the spec: the conversation-buffer object is a third-party
library class, only constructed in the source.  Section 4.6 specifies the
memory as an owned bounded ordered structure: capacity `K` fixed at
construction, `append(turn)`, `transcript()` oldest first, FIFO eviction
when an append would exceed `K`. -/
structure ConversationMemory where
  capacity : Nat
  turns : List Turn
  deriving DecidableEq, Repr

/-- Append one turn; when the buffer would exceed the capacity, drop the
oldest entries down to capacity (FIFO eviction). -/
def ConversationMemory.append (m : ConversationMemory) (t : Turn) : ConversationMemory :=
  let ts := m.turns ++ [t]
  { m with turns := ts.drop (ts.length - m.capacity) }

/-- Method `transcript()`: the recorded turns, oldest first. -/
def ConversationMemory.transcript (m : ConversationMemory) : List Turn :=
  m.turns

/-- Append a whole sequence of turns, one at a time, oldest first. -/
def ConversationMemory.appendAll (m : ConversationMemory) (ts : List Turn) : ConversationMemory :=
  ts.foldl ConversationMemory.append m

/-! ## Index artifact and blob store
(src/service/rag_pipeline.py lines 88-121, spec section 4.4) -/

/-- The loaded index artifact held by the pipeline: the FAISS vector
sequence (`index`), the docstore mapping internal ids to document chunks
(`docstore`) and the position-to-id mapping (`index_to_docstore_id`) —
the three pieces `initialize_faiss_index` assembles into the `FAISS` object. -/
structure FaissIndex (V C : Type) where
  vectors : List V
  docstore : List (String × C)
  index_to_docstore_id : List (Nat × String)
  deriving DecidableEq, Repr

/-- Which of the two persisted objects of one window a key denotes: the
source derives object keys as `{object_key}_index` and `{object_key}_meta`
(lines 104-112); the derived key is modelled as the pair of the window key
and this tag. -/
inductive PartKind where
  | index
  | meta
  deriving DecidableEq, Repr

/-- A derived blob-store key: window identifier plus part tag. -/
structure ObjectKey where
  window : String
  part : PartKind
  deriving DecidableEq, Repr

/-- A stored blob: either a serialized FAISS index (read back by
`faiss.read_index`) or serialized metadata (read back by `pickle.load`,
holding `docstore` and `index_to_docstore_id`). -/
inductive Blob (V C : Type) where
  | indexData (vectors : List V)
  | metaData (docstore : List (String × C)) (id_map : List (Nat × String))
  deriving DecidableEq, Repr

/-- Outcomes of loading an artifact, spec section 7: `notFound` (window
never built), `transient` (storage unreachable, retryable), `parseFailure`
(deserialization failed). -/
inductive LoadError where
  | notFound
  | transient
  | parseFailure
  deriving DecidableEq, Repr

/-- Modelled from the spec: the S3 client is an external collaborator
(section 6 blob storage).  A store is its contents (one bucket, keyed by
`ObjectKey`) plus a reachability flag standing for connectivity. -/
structure S3Store (V C : Type) where
  reachable : Bool
  objects : ObjectKey → Option (Blob V C)

/-- Modelled from the spec: `s3_client.download_file` fetches the object
under a key; connectivity failure gives the transient condition, a missing
key the not-found condition (section 4.4). -/
def download_file (store : S3Store V C) (key : ObjectKey) : Except LoadError (Blob V C) :=
  if store.reachable then
    match store.objects key with
    | some b => Except.ok b
    | none => Except.error LoadError.notFound
  else Except.error LoadError.transient

/-- Library call `faiss.read_index` on a downloaded blob: succeeds on an index blob,
fails to parse anything else. -/
def read_index (b : Blob V C) : Except LoadError (List V) :=
  match b with
  | Blob.indexData vs => Except.ok vs
  | _ => Except.error LoadError.parseFailure

/-- Library call `pickle.load` on a downloaded metadata blob: yields the `docstore` and
`index_to_docstore_id` entries, fails to parse anything else. -/
def pickle_load (b : Blob V C) :
    Except LoadError (List (String × C) × List (Nat × String)) :=
  match b with
  | Blob.metaData ds im => Except.ok (ds, im)
  | _ => Except.error LoadError.parseFailure

/-- The load half of the Index Store Client: the body of
`initialize_faiss_index` (lines 103-114) — download the `_index` object,
parse it, download the `_meta` object, parse it, assemble the artifact. -/
def loadArtifact (store : S3Store V C) (object_key : String) :
    Except LoadError (FaissIndex V C) :=
  match download_file store ⟨object_key, PartKind.index⟩ with
  | Except.error e => Except.error e
  | Except.ok rawIndexBlob =>
    match read_index rawIndexBlob with
    | Except.error e => Except.error e
    | Except.ok vectors =>
      match download_file store ⟨object_key, PartKind.meta⟩ with
      | Except.error e => Except.error e
      | Except.ok rawMetaBlob =>
        match pickle_load rawMetaBlob with
        | Except.error e => Except.error e
        | Except.ok md => Except.ok ⟨vectors, md.1, md.2⟩

/-- Modelled from the spec: the save half of the Index Store Client
(section 4.4; in the source, persisting is `FAISS.save_local` in
`_build_faiss_index`, a library call).  Stores the artifact's vectors under
the `_index` key and its two maps under the `_meta` key. -/
def saveArtifact (store : S3Store V C) (object_key : String) (a : FaissIndex V C) :
    S3Store V C :=
  { store with
    objects := fun k =>
      if k = ⟨object_key, PartKind.index⟩ then some (Blob.indexData a.vectors)
      else if k = ⟨object_key, PartKind.meta⟩ then
        some (Blob.metaData a.docstore a.index_to_docstore_id)
      else store.objects k }

/-! ## The serving pipeline (`RagPipeline`, src/service/rag_pipeline.py) -/

/-- The mutable state of a `RagPipeline` instance: the configured document
count `k`, the conversation buffer, and the held index (`None` until a
successful `initialize_faiss_index`).  The encoder, prompt template,
decoder and chain are construction-time collaborators; the chain is passed
to `run` as a function. -/
structure RagPipeline (V C : Type) where
  nof_retrieved_docs : Nat
  memory : List Turn
  faiss_index : Option (FaissIndex V C)
  deriving DecidableEq, Repr

/-- Method `initialize_faiss_index` (lines 88-121): perform the fallible
download/parse sequence; only after every step succeeds is the single
assignment `self.faiss_index = FAISS(...)` executed.  The result pairs the
outcome with the state of the instance after the call. -/
def RagPipeline.initialize_faiss_index (st : RagPipeline V C) (store : S3Store V C)
    (object_key : String) : Except LoadError Unit × RagPipeline V C :=
  match loadArtifact store object_key with
  | Except.error e => (Except.error e, st)
  | Except.ok a => (Except.ok (), { st with faiss_index := some a })

/-- The errors `run` raises (lines 135-145): `ValueError` for a missing
index, `ValueError` for empty retrieval, plus a propagated chain failure. -/
inductive RunError where
  | indexNotInitialized
  | noMatchingContext
  | synthesisFailed
  deriving DecidableEq, Repr

/-- Backend operations `run` can invoke, recorded in order. -/
inductive BackendEvent where
  | similaritySearch
  | chainRun
  deriving DecidableEq, Repr

/-- The dict `run` passes to `self.chain.run` (lines 147-154). -/
structure ChainInput (C : Type) where
  input_documents : List C
  question : String
  system_prompt : String
  chat_history : List Turn

/-- Outcome of one `run` call: the returned answer or raised error, the
instance state after the call, and the backend operations invoked. -/
structure RunOutcome (V C : Type) where
  result : Except RunError String
  state : RagPipeline V C
  backend_calls : List BackendEvent
  deriving Repr

/-- Method `run` (lines 123-159).  `similarity_search_with_score` and `chain_run`
are the two backend collaborators (FAISS search and the LLM chain), passed
as functions; `chain_run` returning `Except.error` models the backend call
raising.  Steps, in source order: fail if `faiss_index` is `None`; search;
fail if no documents came back; run the chain; on success append the user
question and the answer to memory, in that order, and return the answer. -/
def RagPipeline.run (st : RagPipeline V C)
    (similarity_search_with_score : FaissIndex V C → UserPrompt → Nat → List (C × Int))
    (chain_run : ChainInput C → Except String String)
    (user_prompt : UserPrompt) : RunOutcome V C :=
  match st.faiss_index with
  | none => ⟨Except.error RunError.indexNotInitialized, st, []⟩
  | some idx =>
    let results := similarity_search_with_score idx user_prompt st.nof_retrieved_docs
    let input_documents := results.map Prod.fst
    if input_documents.isEmpty then
      ⟨Except.error RunError.noMatchingContext, st, [BackendEvent.similaritySearch]⟩
    else
      match chain_run ⟨input_documents, user_prompt.prompt, user_prompt.system_prompt,
          st.memory⟩ with
      | Except.error _ =>
        ⟨Except.error RunError.synthesisFailed, st,
          [BackendEvent.similaritySearch, BackendEvent.chainRun]⟩
      | Except.ok response =>
        ⟨Except.ok response,
          { st with memory :=
              st.memory ++ [⟨Role.user, user_prompt.prompt⟩, ⟨Role.assistant, response⟩] },
          [BackendEvent.similaritySearch, BackendEvent.chainRun]⟩

/-! ## Chunker
(src/service/rag_pipeline/pipeline.py lines 93-105, spec section 4.2) -/

/-- Fuel-indexed chunking loop: emit a window of `cs` characters, step
forward by `cs - ov` characters, until the remaining text fits in one
chunk.  The fuel bounds the number of steps; `split` supplies enough. -/
def splitAux (cs ov : Nat) : Nat → List Char → List (List Char)
  | 0, _ => []
  | fuel + 1, text =>
    if text.length ≤ cs then (if text.isEmpty then [] else [text])
    else text.take cs :: splitAux cs ov fuel (text.drop (cs - ov))

/-- Modelled from the spec: `RecursiveCharacterTextSplitter(chunk_size,
chunk_overlap)` is an external library class, only instantiated in
`_split_documents`.  Section 4.2 fixes the Chunker contract:
`split(text, chunk_size, overlap)` in character units produces the ordered
overlapping windows of the text, with empty or whitespace-only input giving
an empty sequence rather than an error. -/
def split (text : List Char) (cs ov : Nat) : List (List Char) :=
  if text.all Char.isWhitespace then [] else splitAux cs ov text.length text

/-- Method `_split_documents` (lines 93-105): drop falsy (empty) texts, wrap the
rest as documents and split each with chunk size 512 and overlap 64. -/
def split_documents (documents : List (List Char)) : List (List Char) :=
  (documents.filter (fun t => !t.isEmpty)).flatMap (fun t => split t 512 64)

/-! ## Relational data layer (src/service/rag_pipeline/get_data_psql.py) -/

/-- The external PostgreSQL engine behind `pd.read_sql`: each table name
either yields a data frame or raises (connection failure, missing table, …),
carried as an error message. -/
def DbEngine (D : Type) := String → Except String D

/-- Function `execute_query` (lines 53-70): run `pd.read_sql` on the table; on any
exception, log it and fall off the end of the function — which returns
`None` instead of the annotated `pd.DataFrame`. -/
def execute_query (engine : DbEngine D) (query : String) : Option D :=
  match engine query with
  | Except.ok db_data => some db_data
  | Except.error _ => none

/-- Function `load_data` (lines 73-81): query every configured table and collect the
results (possibly `None` entries) into a dict, in configuration order. -/
def load_data (db_engine : DbEngine D) (tables_name : List String) :
    List (String × Option D) :=
  tables_name.map (fun table_name => (table_name, execute_query db_engine table_name))

/-- Function `get_data_from_psql` (lines 84-92): load the environment, create the
engine and load the data; any exception in that block (in practice only a
missing `DB_URL`, since `execute_query` swallows its own) is caught, logged,
and the function returns `None`. -/
def get_data_from_psql (db_url : Option String) (engine : DbEngine D)
    (tables : List String) : Option (List (String × Option D)) :=
  match db_url with
  | none => none
  | some _ => some (load_data engine tables)

/-- Python runtime errors raised by the build path when the data layer
hands it `None` where a data frame was promised. -/
inductive PyErr where
  | typeErr
  | attributeErr
  deriving DecidableEq, Repr

/-- Method `_get_filtered_data` (pipeline.py lines 70-91): walk the raw-data dict
in order, extending the accumulated id and text lists from each frame's
configured columns (`ids_of`, `texts_of`).  Subscripting a `None` entry
raises `TypeError`. -/
def get_filtered_data (raw_data : List (String × Option D))
    (ids_of texts_of : D → List String) :
    Except PyErr (List String × List String) :=
  match raw_data with
  | [] => Except.ok ([], [])
  | (_, none) :: _ => Except.error PyErr.typeErr
  | (_, some df) :: rest =>
    match get_filtered_data rest ids_of texts_of with
    | Except.error e => Except.error e
    | Except.ok (ids, docs) => Except.ok (ids_of df ++ ids, texts_of df ++ docs)

/-- Method `_build_faiss_index` (pipeline.py lines 107-120): fetch the raw data,
filter it, split the documents; iterating over a `None` raw-data dict
raises `AttributeError`.  Only after all of that succeeds is the store
built and persisted, so the chunk list is returned exactly when something
would be persisted. -/
def build_faiss_index (db_url : Option String) (engine : DbEngine D)
    (tables : List String) (ids_of texts_of : D → List String) :
    Except PyErr (List (List Char)) :=
  match get_data_from_psql db_url engine tables with
  | none => Except.error PyErr.attributeErr
  | some raw_data =>
    match get_filtered_data raw_data ids_of texts_of with
    | Except.error e => Except.error e
    | Except.ok filtered => Except.ok (split_documents (filtered.2.map String.toList))

/-! ## Concrete instances used by the witnesses -/

/-- A search backend returning no documents. -/
def wSearchEmpty : FaissIndex Unit String → UserPrompt → Nat → List (String × Int) :=
  fun _ _ _ => []

/-- A search backend returning one scored document. -/
def wSearchOne : FaissIndex Unit String → UserPrompt → Nat → List (String × Int) :=
  fun _ _ _ => [("cats are mammals", 0)]

/-- A chain backend that always answers. -/
def wChainOk : ChainInput String → Except String String :=
  fun _ => Except.ok "an answer"

/-- A concrete request. -/
def wPrompt : UserPrompt := ⟨"tell me about cats", "crypto"⟩

/-- A freshly constructed pipeline (no index held yet). -/
def wPipeStart : RagPipeline Unit String := ⟨3, [], none⟩

/-- A concrete index artifact. -/
def wIndex : FaissIndex Unit String := ⟨[(), ()], [("d1", "cats are mammals")], [(0, "d1")]⟩

/-- A pipeline holding `wIndex`. -/
def wPipeReady : RagPipeline Unit String := ⟨3, [], some wIndex⟩

/-- A reachable, empty blob store. -/
def wStore : S3Store Unit String := ⟨true, fun _ => none⟩

/-- An unreachable blob store. -/
def wStoreDown : S3Store Unit String := ⟨false, fun _ => none⟩

/-- Concrete turns. -/
def wTurnA : Turn := ⟨Role.user, "q1"⟩

def wTurnB : Turn := ⟨Role.assistant, "a1"⟩

def wTurnC : Turn := ⟨Role.user, "q2"⟩

/-- A database backend on which every table read raises. -/
def failingEngine : DbEngine Unit := fun _ => Except.error "connection refused"

/-! ## Helper lemmas -/

lemma ConversationMemory.append_capacity (m : ConversationMemory) (t : Turn) :
    (m.append t).capacity = m.capacity := rfl

lemma ConversationMemory.append_turns_length (m : ConversationMemory) (t : Turn) :
    (m.append t).turns.length = min (m.turns.length + 1) m.capacity := by
  simp only [ConversationMemory.append, List.length_drop, List.length_append,
    List.length_cons, List.length_nil]
  omega

lemma ConversationMemory.appendAll_length_le (ts : List Turn) (m : ConversationMemory) :
    (m.appendAll ts).turns.length ≤ max m.turns.length m.capacity := by
  induction ts generalizing m with
  | nil => simp [ConversationMemory.appendAll]
  | cons t ts ih =>
    have h := ih (m.append t)
    simp only [ConversationMemory.appendAll, List.foldl_cons] at h ⊢
    have hlen := ConversationMemory.append_turns_length m t
    have hcap := ConversationMemory.append_capacity m t
    omega

lemma splitAux_mem_ne_nil (cs ov : Nat) (hov : ov < cs) :
    ∀ (fuel : Nat) (text : List Char), ∀ c ∈ splitAux cs ov fuel text, c ≠ [] := by
  intro fuel
  induction fuel with
  | zero =>
    intro text c hc
    simp [splitAux] at hc
  | succ n ih =>
    intro text c hc
    by_cases hle : text.length ≤ cs
    · by_cases hempty : text.isEmpty
      · simp [splitAux, hle, hempty] at hc
      · simp [splitAux, hle, hempty] at hc
        subst hc
        intro hnil
        rw [hnil] at hempty
        simp at hempty
    · simp only [splitAux, if_neg hle] at hc
      rcases List.mem_cons.mp hc with hc | hc
      · subst hc
        apply List.ne_nil_of_length_pos
        rw [List.length_take]
        omega
      · exact ih _ c hc

lemma splitAux_getQ (cs ov : Nat) :
    ∀ (fuel : Nat) (text : List Char) (i : Nat), i < (splitAux cs ov fuel text).length →
      (splitAux cs ov fuel text).get? i = some ((text.drop (i * (cs - ov))).take cs) := by
  intro fuel
  induction fuel with
  | zero =>
    intro text i h
    simp [splitAux] at h
  | succ n ih =>
    intro text i h
    by_cases hle : text.length ≤ cs
    · by_cases hempty : text.isEmpty
      · exfalso
        simp [splitAux, hle, hempty] at h
      · have hi : i = 0 := by
          simp only [splitAux, if_pos hle, if_neg hempty, List.length_cons,
            List.length_nil] at h
          omega
        subst hi
        simp [splitAux, hle, hempty, List.take_of_length_le hle]
    · cases i with
      | zero =>
        simp [splitAux, if_neg hle]
      | succ j =>
        have hj : j < (splitAux cs ov n (text.drop (cs - ov))).length := by
          simp only [splitAux, if_neg hle, List.length_cons] at h
          omega
        have hstep : (cs - ov) + j * (cs - ov) = (j + 1) * (cs - ov) := by ring
        simp only [splitAux, if_neg hle, List.get?_cons_succ]
        rw [ih _ j hj, List.drop_drop, hstep]

/-! ## Claim theorems -/

/-- C10.  Embedding a single text agrees with batch embedding: the
wrapper's `__call__` on `t` is the first element of `embed_documents [t]` —
both routes call `model.encode` on the one-element batch. -/
theorem embed_single_agrees_with_batch (w : EmbeddingModelWrapper V) (t : String) :
    w.call t = (w.embed_documents [t]).head? := rfl

/-- C1.  On a pipeline whose `faiss_index` is still `None` (no successful
`initialize_faiss_index`), `run` raises the not-initialized `ValueError`,
the instance state (held index and conversation memory) is unchanged, and
no backend is invoked. -/
theorem run_before_initialize_fails_pure (st : RagPipeline V C)
    (search : FaissIndex V C → UserPrompt → Nat → List (C × Int))
    (chain : ChainInput C → Except String String) (p : UserPrompt)
    (h : st.faiss_index = none) :
    (st.run search chain p).result = Except.error RunError.indexNotInitialized ∧
    (st.run search chain p).state = st ∧
    (st.run search chain p).backend_calls = [] := by
  simp [RagPipeline.run, h]

/-- C1 witness. -/
theorem run_before_initialize_fails_pure_witness :
    (wPipeStart.run wSearchOne wChainOk wPrompt).result
        = Except.error RunError.indexNotInitialized ∧
    (wPipeStart.run wSearchOne wChainOk wPrompt).state = wPipeStart ∧
    (wPipeStart.run wSearchOne wChainOk wPrompt).backend_calls = [] :=
  run_before_initialize_fails_pure wPipeStart wSearchOne wChainOk wPrompt rfl

/-- C2.  On an initialized pipeline whose retrieval step returns zero
documents, `run` raises the no-matching-context `ValueError`, the chain
(synthesizer) is never invoked, and the state — in particular the
conversation memory — is unchanged. -/
theorem run_empty_retrieval_no_synthesis (st : RagPipeline V C) (idx : FaissIndex V C)
    (search : FaissIndex V C → UserPrompt → Nat → List (C × Int))
    (chain : ChainInput C → Except String String) (p : UserPrompt)
    (hidx : st.faiss_index = some idx)
    (hempty : search idx p st.nof_retrieved_docs = []) :
    (st.run search chain p).result = Except.error RunError.noMatchingContext ∧
    (st.run search chain p).state = st ∧
    (st.run search chain p).backend_calls = [BackendEvent.similaritySearch] := by
  simp [RagPipeline.run, hidx, hempty]

/-- C2 witness. -/
theorem run_empty_retrieval_no_synthesis_witness :
    (wPipeReady.run wSearchEmpty wChainOk wPrompt).result
        = Except.error RunError.noMatchingContext ∧
    (wPipeReady.run wSearchEmpty wChainOk wPrompt).state = wPipeReady ∧
    (wPipeReady.run wSearchEmpty wChainOk wPrompt).backend_calls
        = [BackendEvent.similaritySearch] :=
  run_empty_retrieval_no_synthesis wPipeReady wIndex wSearchEmpty wChainOk wPrompt rfl rfl

/-- C3.  For every request: exactly when the synthesis call succeeds, the
two turns — the user question, then the returned answer — are appended to
the conversation memory in that order; on any failure (not initialized, no
context, synthesis error) the memory is exactly as before. -/
theorem run_memory_two_turns_iff_success (st : RagPipeline V C)
    (search : FaissIndex V C → UserPrompt → Nat → List (C × Int))
    (chain : ChainInput C → Except String String) (p : UserPrompt) :
    (∃ r, (st.run search chain p).result = Except.ok r ∧
        (st.run search chain p).state.memory =
          st.memory ++ [⟨Role.user, p.prompt⟩, ⟨Role.assistant, r⟩]) ∨
    (∃ e, (st.run search chain p).result = Except.error e ∧
        (st.run search chain p).state.memory = st.memory) := by
  cases hidx : st.faiss_index with
  | none =>
    right
    simp [RagPipeline.run, hidx]
  | some idx =>
    by_cases hempty : ((search idx p st.nof_retrieved_docs).map Prod.fst).isEmpty
    · right
      simp [RagPipeline.run, hidx, hempty]
    · cases hchain : chain ⟨(search idx p st.nof_retrieved_docs).map Prod.fst,
          p.prompt, p.system_prompt, st.memory⟩ with
      | error e =>
        right
        simp [RagPipeline.run, hidx, hempty, hchain]
      | ok r =>
        left
        refine ⟨r, ?_, ?_⟩ <;> simp [RagPipeline.run, hidx, hempty, hchain]

/-- C4.  A capacity-`K` conversation memory holds at most `K` turns after
any sequence of appends, and appending to a full memory (holding `K` turns,
`K` positive) evicts exactly the oldest turn while keeping the remaining
turns in order, oldest first. -/
theorem memory_capacity_bound_fifo (K : Nat) (ts : List Turn)
    (m : ConversationMemory) (t : Turn)
    (hK : 0 < K) (hcap : m.capacity = K) (hfull : m.turns.length = K) :
    (ConversationMemory.appendAll ⟨K, []⟩ ts).transcript.length ≤ K ∧
    (m.append t).transcript = m.turns.tail ++ [t] := by
  constructor
  · have h := ConversationMemory.appendAll_length_le ts ⟨K, []⟩
    simpa [ConversationMemory.transcript] using h
  · simp only [ConversationMemory.append, ConversationMemory.transcript]
    have hlen : (m.turns ++ [t]).length - m.capacity = 1 := by
      simp only [List.length_append, List.length_cons, List.length_nil]
      omega
    rw [hlen, List.drop_append_of_le_length (by omega), List.drop_one]

/-- C4 witness. -/
theorem memory_capacity_bound_fifo_witness :
    (ConversationMemory.appendAll ⟨2, []⟩ [wTurnA, wTurnB, wTurnC]).transcript.length ≤ 2 ∧
    (ConversationMemory.append ⟨2, [wTurnA, wTurnB]⟩ wTurnC).transcript
        = [wTurnA, wTurnB].tail ++ [wTurnC] :=
  memory_capacity_bound_fifo 2 [wTurnA, wTurnB, wTurnC] ⟨2, [wTurnA, wTurnB]⟩ wTurnC
    (by decide) rfl rfl

/-- C5.  Round trip through the store: loading the window key just saved
reproduces the artifact exactly — its vectors, its docstore (document map)
and its `index_to_docstore_id` (id map). -/
theorem artifact_save_load_round_trip (store : S3Store V C) (w : String)
    (a : FaissIndex V C) (hreach : store.reachable = true) :
    loadArtifact (saveArtifact store w a) w = Except.ok a := by
  simp [loadArtifact, saveArtifact, download_file, read_index, pickle_load, hreach]

/-- C5 witness. -/
theorem artifact_save_load_round_trip_witness :
    loadArtifact (saveArtifact wStore "W1" wIndex) "W1" = Except.ok wIndex :=
  artifact_save_load_round_trip wStore "W1" wIndex rfl

/-- C6.  The code, not the claim, is at fault here: when a configured table
cannot be read, `execute_query` catches the exception and returns `None`
(the error is swallowed, contradicting both the claim and the function's
own `pd.DataFrame` return annotation); `get_data_from_psql` then returns a
dict successfully, and the build only fails later with an unrelated
`TypeError` when `_get_filtered_data` subscripts the `None` entry — before
anything is persisted. -/
theorem table_read_error_swallowed :
    execute_query failingEngine "news_data" = none ∧
    get_data_from_psql (some "postgresql://localhost/db") failingEngine ["news_data"]
        = some [("news_data", none)] ∧
    build_faiss_index (some "postgresql://localhost/db") failingEngine ["news_data"]
        (fun _ => []) (fun _ => []) = Except.error PyErr.typeErr :=
  ⟨rfl, rfl, rfl⟩

/-- C7.  Chunker contract: empty or whitespace-only input yields the empty
sequence (no error); with `overlap < chunk_size` every produced chunk is
non-empty; and chunk `i` is the window of the source text starting at
offset `i * (chunk_size - overlap)` — so chunks appear in original order. -/
theorem split_contract (text : List Char) (cs ov : Nat) (hov : ov < cs) :
    (text.all Char.isWhitespace → split text cs ov = []) ∧
    (∀ c ∈ split text cs ov, c ≠ []) ∧
    (∀ i, i < (split text cs ov).length →
        (split text cs ov).get? i = some ((text.drop (i * (cs - ov))).take cs)) := by
  refine ⟨?_, ?_, ?_⟩
  · intro hws
    simp [split, hws]
  · intro c hc
    by_cases hws : text.all Char.isWhitespace
    · simp [split, hws] at hc
    · simp only [split, if_neg hws] at hc
      exact splitAux_mem_ne_nil cs ov hov _ text c hc
  · intro i h
    by_cases hws : text.all Char.isWhitespace
    · exfalso
      simp [split, hws] at h
    · simp only [split, if_neg hws] at h ⊢
      exact splitAux_getQ cs ov _ text i h

/-- C7 witness. -/
theorem split_contract_witness :
    split ([' '] : List Char) 2 1 = [] :=
  (split_contract [' '] 2 1 (by decide)).1 (by decide)

/-- C8.  Loading a window distinguishes never-built from retryable: with
the store reachable and the window's index object absent, the load fails
with the not-found condition; with the store unreachable it fails with the
transient condition; and the two conditions are distinct. -/
theorem load_distinguishes_not_found_from_transient (store : S3Store V C) (w : String)
    (hmiss : store.objects ⟨w, PartKind.index⟩ = none) :
    (store.reachable = true → loadArtifact store w = Except.error LoadError.notFound) ∧
    (store.reachable = false → loadArtifact store w = Except.error LoadError.transient) ∧
    LoadError.notFound ≠ LoadError.transient := by
  refine ⟨?_, ?_, by decide⟩
  · intro h
    simp [loadArtifact, download_file, h, hmiss]
  · intro h
    simp [loadArtifact, download_file, h]

/-- C8 witness. -/
theorem load_distinguishes_not_found_from_transient_witness :
    loadArtifact wStore "W2" = Except.error LoadError.notFound ∧
    loadArtifact wStoreDown "W2" = Except.error LoadError.transient :=
  ⟨(load_distinguishes_not_found_from_transient wStore "W2" rfl).1 rfl,
   (load_distinguishes_not_found_from_transient wStoreDown "W2" rfl).2.1 rfl⟩

/-- C9.  Frame of `initialize_faiss_index`: when any download or parse step
fails, the instance — in particular a previously held artifact — is exactly
as before; when the load succeeds, the held artifact is replaced wholesale
by the loaded one in the single final assignment, independent of what was
held before. -/
theorem initialize_frame_and_wholesale_replace (st : RagPipeline V C)
    (store : S3Store V C) (key : String) :
    (∀ e, (st.initialize_faiss_index store key).1 = Except.error e →
        (st.initialize_faiss_index store key).2 = st) ∧
    (∀ a, loadArtifact store key = Except.ok a →
        (st.initialize_faiss_index store key).2
            = { st with faiss_index := some a }) := by
  constructor
  · intro e he
    unfold RagPipeline.initialize_faiss_index at he ⊢
    cases h : loadArtifact store key with
    | error e2 => simp [h]
    | ok a =>
      rw [h] at he
      simp at he
  · intro a ha
    unfold RagPipeline.initialize_faiss_index
    rw [ha]

/-- C9 witness. -/
theorem initialize_frame_and_wholesale_replace_witness :
    (RagPipeline.initialize_faiss_index wPipeReady wStore "W3").2 = wPipeReady ∧
    (RagPipeline.initialize_faiss_index wPipeStart (saveArtifact wStore "W4" wIndex) "W4").2
        = { wPipeStart with faiss_index := some wIndex } :=
  ⟨(initialize_frame_and_wholesale_replace wPipeReady wStore "W3").1
      LoadError.notFound rfl,
   (initialize_frame_and_wholesale_replace wPipeStart
      (saveArtifact wStore "W4" wIndex) "W4").2 wIndex rfl⟩

end AICryptoPulse
